import Mathlib

/-!
Shallow embedding of the chatbot source-synchronization core:
`src/services/storageService.ts` (remote store client) and the session
state logic of `src/App.tsx` (published/draft collections, polling,
save, query orchestration).

Modelling conventions:
* TypeScript interfaces become Lean structures with the same field names.
* `string | null` / optional fields become `Option String`.
* Network effects are modelled by passing the remote outcome as an
  explicit argument; a function that performs no request simply ignores
  (or does not take) that argument.
* A thrown JavaScript `Error` is modelled by the `JsError` structure
  (`isGistNotFound` models `instanceof GistNotFoundError`); functions
  that can throw return `Except JsError _`.
* `JSON.stringify` on typed values is modelled as the token stream of
  the emitted JSON text (`List JToken` below): a `lit` token stands for
  a JSON string literal with its quotes and escapes. Rendering a token
  stream to text (with the deterministic `(null, 2)` pretty-printing
  whitespace) is injective, so two stringify results coincide exactly
  when the token streams do.
* `JSON.parse` of the gist file content is abstracted by
  `ParsedContent`: the string either fails to parse (`unparseable`,
  `JSON.parse` throws), parses to a non-array value (`notArray`), or
  parses to an array, read back as `Source[]` (`array`), mirroring the
  `Array.isArray` test in the code.
-/

namespace Chatbot

/-- Tokens of emitted JSON text; `lit s` is the string literal for `s`
(escaping is injective, so token equality matches text equality). -/
inductive JToken where
  | lbrack
  | rbrack
  | lbrace
  | rbrace
  | comma
  | colon
  | lit (s : String)
deriving DecidableEq

/-- `Source.content` from `types.ts`: mime type plus raw or base64 data. -/
structure SourceContent where
  mimeType : String
  data : String
deriving DecidableEq

/-- `Source` from `types.ts`; `fileName` is optional. -/
structure Source where
  id : String
  title : String
  fileName : Option String
  content : SourceContent
deriving DecidableEq

/-- `Citation` from `types.ts`. -/
structure Citation where
  sourceId : String
  sourceTitle : String
  quote : String
deriving DecidableEq

/-- Message role: the `role` field of `ChatMessage`. -/
inductive Role where
  | user
  | model
deriving DecidableEq

/-- `ChatMessage` from `types.ts`; `citations` is optional. -/
structure ChatMessage where
  id : String
  role : Role
  text : String
  citations : Option (List Citation)
deriving DecidableEq

/-- `ToastType` from `types.ts`. -/
inductive ToastType where
  | success
  | error
  | info
deriving DecidableEq

/-- A toast notification (`ToastMessage` from `types.ts`); the numeric
`Date.now()` id used only as a React list key is omitted. -/
structure Toast where
  message : String
  type : ToastType
deriving DecidableEq

/-- `AdminConfig` from `storageService.ts`: the write token and an
optional ISO save timestamp. -/
structure AdminConfig where
  githubToken : String
  savedAt : Option String
deriving DecidableEq

/-- The fixed public gist id from `App.tsx`. -/
def PUBLIC_GIST_ID : String := "66334a5aafde2cd3ed37c02a8379189b"

/-- `DEFAULT_SOURCES` from `storageService.ts`. -/
def DEFAULT_SOURCES : List Source :=
  [ { id := "default-1"
    , title := "Giới thiệu Tin Học Sao Việt"
    , fileName := some "gioi-thieu.txt"
    , content :=
      { mimeType := "text/plain"
      , data := "Trung Tâm Tin Học Sao Việt là một trong những đơn vị hàng đầu trong lĩnh vực đào tạo tin học văn phòng và ứng dụng công nghệ thông tin tại Việt Nam. Chúng tôi cung cấp các khóa học đa dạng từ cơ bản đến nâng cao, bao gồm Microsoft Word, Excel, PowerPoint, và các khóa học chuyên sâu về phân tích dữ liệu. Sứ mệnh của chúng tôi là trang bị cho học viên những kỹ năng cần thiết để thành công trong môi trường làm việc hiện đại." } }
  , { id := "default-2"
    , title := "Cam kết chất lượng"
    , fileName := some "cam-ket.txt"
    , content :=
      { mimeType := "text/plain"
      , data := "Tại Tin Học Sao Việt, chất lượng giảng dạy là ưu tiên số một. Đội ngũ giảng viên của chúng tôi là những chuyên gia có nhiều năm kinh nghiệm thực tế và khả năng sư phạm xuất sắc. Chúng tôi cam kết 100% học viên sau khi hoàn thành khóa học sẽ nắm vững kiến thức và tự tin áp dụng vào công việc. Môi trường học tập hiện đại, thân thiện và luôn hỗ trợ học viên 24/7." } } ]

/-- A thrown JavaScript `Error`; `isGistNotFound` models
`instanceof GistNotFoundError`. -/
structure JsError where
  isGistNotFound : Bool
  message : String
deriving DecidableEq

/-- `String.prototype.includes`: substring containment test. -/
def stringIncludes (s sub : String) : Bool :=
  decide (sub.data <:+: s.data)

/-- `JSON.parse` applied to the gist file content, abstracted by outcome
class: throws, parses to a non-array value, or parses to an array which
the code reads back as `Source[]` without further validation. -/
inductive ParsedContent where
  | unparseable
  | notArray
  | array (xs : List Source)
deriving DecidableEq

/-- Outcome of the HTTP GET against the gist endpoint, as observed by
`getSources`: the conditional 304, a success envelope carrying the
`sources.json` file content (if present) and the response `ETag` header,
or the failing statuses the code branches on. -/
inductive RemoteOutcome where
  | notModified
  | ok (file : Option ParsedContent) (etag : Option String)
  | notFound
  | forbidden
  | otherStatus (status : Nat)
  | transportFailure
deriving DecidableEq

/-- The record resolved by `getSources`. -/
structure FetchResult where
  status : Nat
  sources : Option (List Source)
  etag : Option String
deriving DecidableEq

/-- Message of the 403 rate-limit error thrown by `getSources`. -/
def rateLimitMsg : String :=
  "Đã đạt đến giới hạn truy cập API GitHub. Vui lòng thử lại sau."

/-- Message of the generic non-success GitHub API error thrown by
`getSources`. -/
def apiErrMsg (status : Nat) : String :=
  "Lỗi API GitHub! status: " ++ toString status

/-- Message of the `GistNotFoundError` thrown by `getSources` (the
quoting apostrophes around the id are dropped in the model). -/
def notFoundMsg (gistId : String) : String :=
  "Không tìm thấy Gist với ID " ++ gistId ++ ". Vui lòng kiểm tra lại Gist ID trong cấu hình của bạn."

/-- Message of the wrapped transport/parse failure thrown by
`getSources`. -/
def networkMsg : String :=
  "Một lỗi mạng đã xảy ra khi lấy nguồn."

/-- `getSources` from `storageService.ts`. An empty gist id short-circuits
to the default sources without touching the network (the remote outcome
is ignored on that path). The catch block re-throws `GistNotFoundError`
and errors whose message contains "API GitHub" and wraps everything else
(including a `JSON.parse` failure on the file content) as the network
error. -/
def getSources (gistId : String) (etag : Option String)
    (remote : RemoteOutcome) : Except JsError FetchResult :=
  if gistId == "" then
    .ok { status := 200, sources := some DEFAULT_SOURCES, etag := none }
  else
    match remote with
    | .notModified => .ok { status := 304, sources := none, etag := etag }
    | .notFound => .error { isGistNotFound := true, message := notFoundMsg gistId }
    | .forbidden => .error { isGistNotFound := false, message := rateLimitMsg }
    | .otherStatus s => .error { isGistNotFound := false, message := apiErrMsg s }
    | .transportFailure => .error { isGistNotFound := false, message := networkMsg }
    | .ok file newEtag =>
      match file with
      | none => .ok { status := 200, sources := some DEFAULT_SOURCES, etag := newEtag }
      | some .unparseable => .error { isGistNotFound := false, message := networkMsg }
      | some .notArray => .ok { status := 200, sources := some DEFAULT_SOURCES, etag := newEtag }
      | some (.array xs) =>
        .ok { status := 200
            , sources := some (if xs.length > 0 then xs else DEFAULT_SOURCES)
            , etag := newEtag }

/-- Message of the config guard error thrown by `saveSources`. -/
def saveConfigMsg : String :=
  "Cấu hình lưu trữ (Gist ID và GitHub Token) là bắt buộc để lưu các nguồn."

/-- Outcome of the HTTP PATCH issued by `saveSources`. -/
inductive WriteOutcome where
  | ok (etag : Option String)
  | httpError (status : Nat) (message : String)
  | transportFailure
deriving DecidableEq

/-- `saveSources` from `storageService.ts`: guard for missing gist id or
token (before any network call), then the PATCH request; non-success
responses throw the API error, transport failures are wrapped. -/
def saveSources (_sources : List Source) (gistId githubToken : String)
    (remote : WriteOutcome) : Except JsError (Option String) :=
  if gistId == "" || githubToken == "" then
    .error { isGistNotFound := false, message := saveConfigMsg }
  else
    match remote with
    | .ok newEtag => .ok newEtag
    | .httpError s m =>
      .error { isGistNotFound := false
             , message := "Lỗi API GitHub! status: " ++ toString s ++ ", message: " ++ m }
    | .transportFailure =>
      .error { isGistNotFound := false, message := "Không thể lưu các nguồn." }

/-- Token stream of `JSON.stringify` applied to one `Source` value: the
object keys in interface order, with the `fileName` key dropped when the
field is absent (`JSON.stringify` omits `undefined` properties). -/
def serializeSource (s : Source) : List JToken :=
  [.lbrace, .lit "id", .colon, .lit s.id, .comma, .lit "title", .colon, .lit s.title]
  ++ (match s.fileName with
      | some f => [.comma, .lit "fileName", .colon, .lit f]
      | none => [])
  ++ [.comma, .lit "content", .colon,
      .lbrace, .lit "mimeType", .colon, .lit s.content.mimeType,
      .comma, .lit "data", .colon, .lit s.content.data,
      .rbrace, .rbrace]

/-- Comma-joined token streams of the array elements. -/
def serializeItems : List Source → List JToken
  | [] => []
  | s :: rest =>
    serializeSource s
      ++ (match rest with | [] => [] | _ => [JToken.comma])
      ++ serializeItems rest

/-- Token stream of `JSON.stringify` applied to a `Source[]` value. -/
def serializeSources (l : List Source) : List JToken :=
  JToken.lbrack :: (serializeItems l ++ [JToken.rbrack])

/-- `hasUnsavedChanges` from `App.tsx`:
`JSON.stringify(sources) !== JSON.stringify(draftSources)`. -/
def hasUnsavedChanges (sources draftSources : List Source) : Bool :=
  serializeSources sources != serializeSources draftSources

/-- The session state owned by the `App` component: role flag, the
published and draft collections, the conditional-fetch revision tag, the
recorded load error, the per-role conversation logs, the toast queue,
the stored admin credential, and the active admin panel. Presentational
fields (loading spinners, modal flags, notes, mobile panel) are omitted
as the claims do not touch them. -/
structure AppState where
  isAdmin : Bool
  sources : List Source
  draftSources : List Source
  sourcesEtag : Option String
  errorMsg : Option String
  adminMessages : List ChatMessage
  guestMessages : List ChatMessage
  toasts : List Toast
  adminConfig : Option AdminConfig
  adminPanelIsSettings : Bool
deriving DecidableEq

/-- JavaScript truthiness test for `sourcesEtag` (`!sourcesEtag`): the
tag is falsy when absent or the empty string. -/
def etagFalsy : Option String → Bool
  | none => true
  | some s => s == ""

/-- The `!adminConfig || !adminConfig.githubToken` guard in
`handleSaveChanges`: no stored credential, or an empty (falsy) token. -/
def configMissing : Option AdminConfig → Bool
  | none => true
  | some c => c.githubToken == ""

/-- Display message of `fetchInitialSources` for the generic cause. -/
def genericDisplayMsg : String :=
  "Không thể tải các nguồn dữ liệu từ Gist đã cấu hình. Ứng dụng sẽ sử dụng dữ liệu mẫu mặc định."

/-- Display message of `fetchInitialSources` for `GistNotFoundError`
(quoting apostrophes around the id dropped as in `notFoundMsg`). -/
def notFoundDisplayMsg : String :=
  "Không tìm thấy Gist với ID " ++ PUBLIC_GIST_ID ++ ". Vui lòng kiểm tra lại Gist ID trong cấu hình của bạn."

/-- Display message of `fetchInitialSources` for errors whose message
contains "API" (intended for the rate-limit cause). -/
def rateLimitDisplayMsg : String :=
  "Đã đạt đến giới hạn truy cập API GitHub. Vui lòng thử lại sau."

/-- The error classification of the catch block in
`fetchInitialSources`: `instanceof GistNotFoundError` first, then the
`err.message.includes("API")` test, then the generic message. -/
def classifyFetchError (e : JsError) : String :=
  if e.isGistNotFound then notFoundDisplayMsg
  else if stringIncludes e.message "API" then rateLimitDisplayMsg
  else genericDisplayMsg

/-- `fetchInitialSources` from `App.tsx`: clears the recorded error,
fetches with no revision tag, on a 200 with sources sets published,
draft and the tag; any other resolution throws and the catch block
records the classified message and falls back to the defaults without
touching the tag. -/
def fetchInitialSources (st : AppState) (remote : RemoteOutcome) : AppState :=
  let st0 : AppState := { st with errorMsg := none }
  match getSources PUBLIC_GIST_ID none remote with
  | .ok r =>
    match r.sources with
    | some fetched =>
      if r.status == 200 then
        { st0 with sources := fetched, draftSources := fetched, sourcesEtag := r.etag }
      else
        { st0 with
          errorMsg := some (classifyFetchError
            { isGistNotFound := false, message := "Không thể tải xuống nội dung nguồn ban đầu." })
          sources := DEFAULT_SOURCES, draftSources := DEFAULT_SOURCES }
    | none =>
      { st0 with
        errorMsg := some (classifyFetchError
          { isGistNotFound := false, message := "Không thể tải xuống nội dung nguồn ban đầu." })
        sources := DEFAULT_SOURCES, draftSources := DEFAULT_SOURCES }
  | .error e =>
    { st0 with
      errorMsg := some (classifyFetchError e)
      sources := DEFAULT_SOURCES, draftSources := DEFAULT_SOURCES }

/-- Toast shown by the poll when an admin session receives new remote
sources. -/
def adminPollToast : Toast :=
  { message := "Nguồn dữ liệu đã được cập nhật bởi một quản trị viên khác.", type := .info }

/-- Toast shown by the poll when a guest session receives new remote
sources. -/
def guestPollToast : Toast :=
  { message := "Nguồn dữ liệu đã được cập nhật. Cuộc trò chuyện của bạn đã được làm mới.", type := .info }

/-- One tick of the polling `useEffect` in `App.tsx`. Returns the next
state and whether a fetch was issued. Skips (issuing no request) when
there are unsaved changes or the held tag is falsy; otherwise fetches
with the held tag, and on a 200 carrying sources replaces published and
the tag, then replaces draft and toasts for an admin, or clears the
guest log and toasts for a guest. A 304 and every error leave the state
unchanged (errors are only logged). -/
def pollTick (st : AppState) (remote : RemoteOutcome) : AppState × Bool :=
  if hasUnsavedChanges st.sources st.draftSources || etagFalsy st.sourcesEtag then
    (st, false)
  else
    match getSources PUBLIC_GIST_ID st.sourcesEtag remote with
    | .ok r =>
      match r.sources with
      | some newSources =>
        if r.status == 200 then
          if st.isAdmin then
            ({ st with
                sources := newSources, sourcesEtag := r.etag
                draftSources := newSources
                toasts := st.toasts ++ [adminPollToast] }, true)
          else
            ({ st with
                sources := newSources, sourcesEtag := r.etag
                guestMessages := []
                toasts := st.toasts ++ [guestPollToast] }, true)
        else (st, true)
      | none => (st, true)
    | .error _ => (st, true)

/-- Toast shown by `handleSaveChanges` when no credential is stored
(the `ConfigError` surface). -/
def saveConfigErrorToast : Toast :=
  { message := "Lỗi: Không tìm thấy cấu hình lưu trữ. Vui lòng định cấu hình GitHub Token trong tab Cấu hình."
  , type := .error }

/-- Toast shown by `handleSaveChanges` on a successful save. -/
def saveSuccessToast : Toast :=
  { message := "Các thay đổi đã được lưu và công khai cho tất cả người dùng.", type := .success }

/-- `handleSaveChanges` from `App.tsx`. Returns the next state and
whether a network call was made. With no stored credential it only
toasts the config error and steers the admin panel to settings; with a
credential it writes the draft, and on success publishes the draft and
stores the new tag, on failure toasts the error detail. -/
def handleSaveChanges (st : AppState) (remote : WriteOutcome) : AppState × Bool :=
  if configMissing st.adminConfig then
    ({ st with toasts := st.toasts ++ [saveConfigErrorToast], adminPanelIsSettings := true }, false)
  else
    match st.adminConfig with
    | none => ({ st with toasts := st.toasts ++ [saveConfigErrorToast], adminPanelIsSettings := true }, false)
    | some cfg =>
      match saveSources st.draftSources PUBLIC_GIST_ID cfg.githubToken remote with
      | .ok newEtag =>
        ({ st with
            sources := st.draftSources, sourcesEtag := newEtag
            toasts := st.toasts ++ [saveSuccessToast] }, true)
      | .error e =>
        ({ st with
            toasts := st.toasts ++
              [{ message := "Đã xảy ra lỗi khi lưu thay đổi: " ++ e.message, type := .error }] }, true)

/-- `addSource` from `App.tsx`: admin-only; appends a source whose id is
derived from `Date.now()` (passed in as `now`) to the draft only. -/
def addSource (st : AppState) (now : Nat) (title : String)
    (content : SourceContent) (fileName : Option String) : AppState :=
  if !st.isAdmin then st
  else
    { st with
      draftSources := st.draftSources ++
        [{ id := "source-" ++ toString now, title := title, fileName := fileName, content := content }] }

/-- `deleteSource` from `App.tsx`: admin-only; filters the draft by id. -/
def deleteSource (st : AppState) (id : String) : AppState :=
  if !st.isAdmin then st
  else { st with draftSources := st.draftSources.filter (fun s => s.id != id) }

/-- A citation as returned by the answering service (`querySources`):
source id and quote, no title yet. -/
structure RawCitation where
  sourceId : String
  quote : String
deriving DecidableEq

/-- Resolution of the `querySources` call inside `sendMessage`: an
answer with raw citations, or a thrown error message. -/
inductive QueryOutcome where
  | success (answer : String) (citations : List RawCitation)
  | failure (message : String)
deriving DecidableEq

/-- Fallback citation title used in `sendMessage`. -/
def unknownSourceTitle : String := "Nguồn không xác định"

/-- Message of the error thrown by `sendMessage` when the published
collection is empty (the `EmptySourcesError` surface). -/
def emptySourcesMsg : String :=
  "Không có nguồn nào được tải lên. Vui lòng liên hệ quản trị viên."

/-- Citation title resolution from `sendMessage`:
`sources.find(s => s.id === cit.sourceId)` then
`source?.title || 'unknown source'` — the fallback fires when the lookup
fails or when the found title is falsy (empty). -/
def citTitle (sources : List Source) (sourceId : String) : String :=
  match sources.find? (fun s => s.id == sourceId) with
  | none => unknownSourceTitle
  | some s => if s.title == "" then unknownSourceTitle else s.title

/-- `{ ...cit, sourceTitle }` in `sendMessage`. -/
def resolveCitation (sources : List Source) (cit : RawCitation) : Citation :=
  { sourceId := cit.sourceId, quote := cit.quote
  , sourceTitle := citTitle sources cit.sourceId }

/-- Appends a message to the role-appropriate conversation log
(`setAdminMessages` / `setGuestMessages` in `sendMessage`). -/
def appendMessage (st : AppState) (m : ChatMessage) : AppState :=
  if st.isAdmin then { st with adminMessages := st.adminMessages ++ [m] }
  else { st with guestMessages := st.guestMessages ++ [m] }

/-- `sendMessage` from `App.tsx`. Clears the recorded error, appends the
user message to the active log, then checks the published collection:
if it is empty, throws — the catch records the message and no model
message is appended. Otherwise delegates to `querySources`; on success
resolves citation titles against the published collection and appends
the model message, on failure records the error message. `now` models
`Date.now()`. -/
def sendMessage (st : AppState) (now : Nat) (question : String)
    (query : QueryOutcome) : AppState :=
  let userMessage : ChatMessage :=
    { id := "msg-" ++ toString now, role := .user, text := question, citations := none }
  let st1 := appendMessage { st with errorMsg := none } userMessage
  if st1.sources.length == 0 then
    { st1 with errorMsg := some emptySourcesMsg }
  else
    match query with
    | .failure m => { st1 with errorMsg := some m }
    | .success answer rawCitations =>
      let citations := rawCitations.map (resolveCitation st1.sources)
      let modelMessage : ChatMessage :=
        { id := "msg-" ++ toString (now + 1), role := .model
        , text := answer, citations := some citations }
      appendMessage st1 modelMessage

/-! ### Injectivity of the stringify model -/

lemma serializeSource_append_inj {s1 s2 : Source} {t1 t2 : List JToken}
    (h : serializeSource s1 ++ t1 = serializeSource s2 ++ t2) : s1 = s2 ∧ t1 = t2 := by
  obtain ⟨id1, title1, fn1, m1, d1⟩ := s1
  obtain ⟨id2, title2, fn2, m2, d2⟩ := s2
  cases fn1 <;> cases fn2 <;> simp_all [serializeSource]

lemma serializeItems_inj : ∀ {l1 l2 : List Source},
    serializeItems l1 = serializeItems l2 → l1 = l2 := by
  intro l1
  induction l1 with
  | nil =>
    intro l2 h
    cases l2 with
    | nil => rfl
    | cons s r => simp [serializeItems, serializeSource] at h
  | cons s r ih =>
    intro l2 h
    cases l2 with
    | nil => simp [serializeItems, serializeSource] at h
    | cons s' r' =>
      cases r with
      | nil =>
        cases r' with
        | nil =>
          simp only [serializeItems, List.append_nil] at h
          exact congrArg (· :: []) (@serializeSource_append_inj s s' [] []
            (by simpa using h)).1
        | cons a' b' =>
          simp only [serializeItems, List.append_nil, List.append_assoc] at h
          exact absurd (@serializeSource_append_inj s s' [] _
            (by simpa using h)).2 (by simp)
      | cons a b =>
        cases r' with
        | nil =>
          simp only [serializeItems, List.append_nil, List.append_assoc] at h
          exact absurd (@serializeSource_append_inj s s' _ []
            (by simpa using h)).2 (by simp)
        | cons a' b' =>
          simp only [serializeItems, List.append_assoc] at h
          obtain ⟨hs, ht⟩ := serializeSource_append_inj h
          injection ht with _ ht
          have hx : serializeItems (a :: b) = serializeItems (a' :: b') := by
            simp only [serializeItems, List.append_assoc]
            exact ht
          rw [hs, ih hx]

lemma serializeSources_inj {l1 l2 : List Source}
    (h : serializeSources l1 = serializeSources l2) : l1 = l2 := by
  simp only [serializeSources, List.cons.injEq, true_and] at h
  exact serializeItems_inj (List.append_cancel_right h)

/-! ### Concrete sample values used by witnesses and counterexamples -/

/-- A small sample source. -/
def srcA : Source :=
  { id := "a", title := "A", fileName := none
  , content := { mimeType := "text/plain", data := "da" } }

/-- A second sample source, with a file name. -/
def srcB : Source :=
  { id := "b", title := "B", fileName := some "b.txt"
  , content := { mimeType := "text/plain", data := "db" } }

/-- A sample source whose title is the empty string. -/
def srcEmptyTitle : Source :=
  { id := "e", title := "", fileName := none
  , content := { mimeType := "text/plain", data := "de" } }

/-- A freshly mounted guest session: nothing loaded yet. -/
def initState : AppState :=
  { isAdmin := false, sources := [], draftSources := [], sourcesEtag := none
  , errorMsg := none, adminMessages := [], guestMessages := [], toasts := []
  , adminConfig := none, adminPanelIsSettings := false }

/-! ### C4: the dirty check -/

/-- C4: the session is dirty exactly when the ordered published and
draft collections differ under structural equality; equal collections
are never dirty, and a proper reordering of the same sources is dirty. -/
theorem dirty_iff_collections_differ (pub draft : List Source) :
    (hasUnsavedChanges pub draft = true ↔ pub ≠ draft)
    ∧ (pub = draft → hasUnsavedChanges pub draft = false)
    ∧ (pub.Perm draft → pub ≠ draft → hasUnsavedChanges pub draft = true) := by
  have key : hasUnsavedChanges pub draft = true ↔ pub ≠ draft := by
    unfold hasUnsavedChanges
    rw [bne_iff_ne]
    constructor
    · intro hne heq
      exact hne (by rw [heq])
    · exact fun hne hser => hne (serializeSources_inj hser)
  refine ⟨key, ?_, fun _ => key.mpr⟩
  intro heq
  subst heq
  simp [hasUnsavedChanges]

/-- Witness for C4 at concrete collections: a swap of two distinct
sources is dirty, the identical pair is clean. -/
theorem dirty_iff_collections_differ_witness :
    hasUnsavedChanges [srcA, srcB] [srcB, srcA] = true
    ∧ hasUnsavedChanges [srcA, srcB] [srcA, srcB] = false :=
  ⟨(dirty_iff_collections_differ [srcA, srcB] [srcB, srcA]).2.2
      (List.Perm.swap srcB srcA []) (by decide),
   (dirty_iff_collections_differ [srcA, srcB] [srcA, srcB]).2.1 rfl⟩

/-! ### C5: addSource then deleteSource round-trip -/

/-- C5: in an admin session, adding a source and then deleting it by the
freshly generated id (which, being fresh, matches no prior entry)
restores the entire session state, in particular the draft collection
with the same remaining entries in the same order. -/
theorem add_then_delete_restores_draft (st : AppState) (now : Nat) (title : String)
    (content : SourceContent) (fileName : Option String)
    (hadmin : st.isAdmin = true)
    (hfresh : ∀ s ∈ st.draftSources, s.id ≠ "source-" ++ toString now) :
    deleteSource (addSource st now title content fileName) ("source-" ++ toString now) = st := by
  have hfilter : st.draftSources.filter
      (fun s => s.id != "source-" ++ toString now) = st.draftSources :=
    List.filter_eq_self.mpr (fun s hs => by simpa [bne_iff_ne] using hfresh s hs)
  cases st
  simp_all [addSource, deleteSource, List.filter_append]

/-- Witness for C5: adding to a concrete admin draft and deleting the
returned id restores the state. -/
theorem add_then_delete_restores_draft_witness :
    deleteSource
      (addSource { initState with isAdmin := true, sources := [srcA], draftSources := [srcA] }
        7 "T" { mimeType := "text/plain", data := "d" } none)
      ("source-" ++ toString 7)
      = { initState with isAdmin := true, sources := [srcA], draftSources := [srcA] } :=
  add_then_delete_restores_draft _ 7 "T" _ none rfl (by decide)

/-! ### C6: fetch on a missing document and on an empty document id -/

/-- C6: with a non-empty document id, a 404 from the remote makes
`getSources` signal `GistNotFoundError`; with the empty id, `getSources`
returns the built-in defaults with success status and no revision tag
whatever the remote would have answered — never an error. -/
theorem fetch_not_found_and_empty_id :
    (∀ (gistId : String) (etag : Option String), gistId ≠ "" →
        getSources gistId etag .notFound =
          .error { isGistNotFound := true, message := notFoundMsg gistId })
    ∧ ∀ (etag : Option String) (remote : RemoteOutcome),
        getSources "" etag remote =
          .ok { status := 200, sources := some DEFAULT_SOURCES, etag := none } := by
  constructor
  · intro gid etag hg
    simp [getSources, beq_iff_eq, hg]
  · intro etag remote
    simp [getSources]

/-- Witness for C6 at a concrete id and outcome. -/
theorem fetch_not_found_and_empty_id_witness :
    getSources "g" none .notFound =
      .error { isGistNotFound := true, message := notFoundMsg "g" } :=
  fetch_not_found_and_empty_id.1 "g" none (by decide)

/-! ### C7: degenerate payloads fall back to the defaults -/

/-- C7 counterexample: file content that does not parse as JSON — hence
in particular is not a sequence — makes `getSources` throw (the wrapped
network error) instead of returning the defaults with success status. -/
theorem fetch_unparseable_content_hard_fails :
    getSources "g" none (.ok (some .unparseable) (some "t")) =
      .error { isGistNotFound := false, message := networkMsg } := by
  simp [getSources]

/-- C7 amended: for a successful response whose payload misses the
expected file, parses to a non-sequence JSON value, or parses to an
empty sequence, `getSources` returns the built-in defaults with success
status and the response's new revision tag; content that fails to parse
at all instead raises the network error (see the counterexample). -/
theorem fetch_degenerate_payload_returns_defaults (gistId : String)
    (etag netag : Option String) (file : Option ParsedContent) (hg : gistId ≠ "")
    (hf : file = none ∨ file = some .notArray ∨ file = some (.array [])) :
    getSources gistId etag (.ok file netag) =
      .ok { status := 200, sources := some DEFAULT_SOURCES, etag := netag } := by
  rcases hf with rfl | rfl | rfl <;> simp [getSources, beq_iff_eq, hg]

/-- Witness for C7 at a concrete missing-file payload. -/
theorem fetch_degenerate_payload_returns_defaults_witness :
    getSources "g" none (.ok none (some "t")) =
      .ok { status := 200, sources := some DEFAULT_SOURCES, etag := some "t" } :=
  fetch_degenerate_payload_returns_defaults "g" none (some "t") none (by decide) (Or.inl rfl)

/-! ### C10: empty-title citation resolution -/

/-- C10: when the citation lookup finds a source whose title is the
empty string, resolution still attaches the fallback title — the
fallback is keyed on the title being falsy, not only on the lookup
failing. -/
theorem citation_empty_title_resolves_to_fallback (sources : List Source)
    (sourceId : String) (s : Source)
    (hfind : sources.find? (fun x => x.id == sourceId) = some s)
    (htitle : s.title = "") :
    citTitle sources sourceId = unknownSourceTitle := by
  simp [citTitle, hfind, htitle]

/-- Witness for C10 at a concrete one-source collection. -/
theorem citation_empty_title_resolves_to_fallback_witness :
    citTitle [srcEmptyTitle] "e" = unknownSourceTitle :=
  citation_empty_title_resolves_to_fallback [srcEmptyTitle] "e" srcEmptyTitle (by decide) rfl

/-! ### C1: asking on an empty collection -/

lemma appendMessage_sources (st : AppState) (m : ChatMessage) :
    (appendMessage st m).sources = st.sources := by
  unfold appendMessage
  split <;> rfl

/-- C1 counterexample: asking "x" on the empty collection records the
empty-sources error, but the user message has already been appended to
the active (guest) log, so the log is not structurally unchanged. -/
theorem ask_empty_collection_appends_user_message :
    (sendMessage initState 0 "x" (.success "a" [])).guestMessages =
      [{ id := "msg-0", role := .user, text := "x", citations := none }]
    ∧ initState.guestMessages = []
    ∧ (sendMessage initState 0 "x" (.success "a" [])).errorMsg = some emptySourcesMsg := by
  decide

/-- C1 amended: asking a question on an empty published collection
records the empty-sources error and no model message is appended, but
the user message is appended first, so the active log grows by exactly
that user message. -/
theorem ask_empty_sources_records_error_and_user_message (st : AppState) (now : Nat)
    (q : String) (query : QueryOutcome) (h : st.sources = []) :
    sendMessage st now q query =
      appendMessage { st with errorMsg := some emptySourcesMsg }
        { id := "msg-" ++ toString now, role := .user, text := q, citations := none } := by
  simp only [sendMessage, appendMessage]
  cases hA : st.isAdmin <;> simp [h, hA]

/-- Witness for C1 (amended) at a concrete empty-collection state. -/
theorem ask_empty_sources_records_error_and_user_message_witness :
    sendMessage initState 3 "x" (.success "a" []) =
      appendMessage { initState with errorMsg := some emptySourcesMsg }
        { id := "msg-" ++ toString 3, role := .user, text := "x", citations := none } :=
  ask_empty_sources_records_error_and_user_message initState 3 "x" (.success "a" []) rfl

/-! ### C8: save without a stored credential -/

/-- C8: with no stored credential (absent record or falsy token),
`handleSaveChanges` performs no network call, leaves published and draft
unchanged, and only emits the config-error toast (steering the admin to
settings); and `saveSources` itself rejects an empty token before any
request. -/
theorem save_without_credential_config_error (st : AppState) (remote : WriteOutcome)
    (h : configMissing st.adminConfig = true) :
    handleSaveChanges st remote =
      ({ st with toasts := st.toasts ++ [saveConfigErrorToast], adminPanelIsSettings := true }, false)
    ∧ (handleSaveChanges st remote).1.sources = st.sources
    ∧ (handleSaveChanges st remote).1.draftSources = st.draftSources
    ∧ (handleSaveChanges st remote).2 = false
    ∧ saveConfigErrorToast.type = ToastType.error
    ∧ ∀ (srcs : List Source) (remote2 : WriteOutcome),
        saveSources srcs PUBLIC_GIST_ID "" remote2 =
          .error { isGistNotFound := false, message := saveConfigMsg } := by
  have hmain : handleSaveChanges st remote =
      ({ st with toasts := st.toasts ++ [saveConfigErrorToast], adminPanelIsSettings := true }, false) := by
    simp [handleSaveChanges, h]
  refine ⟨hmain, by rw [hmain], by rw [hmain], by rw [hmain], rfl, ?_⟩
  intro srcs remote2
  simp [saveSources]

/-- Witness for C8 at a concrete credential-less state. -/
theorem save_without_credential_config_error_witness :
    handleSaveChanges initState (.ok (some "t")) =
      ({ initState with toasts := [saveConfigErrorToast], adminPanelIsSettings := true }, false) := by
  have := save_without_credential_config_error initState (.ok (some "t")) rfl
  simpa using this.1

/-! ### C9: citation with an unknown source id -/

/-- C9: a citation whose source id matches no source in the published
collection resolves to the fallback title, and the response still
succeeds: both the user and the model message are appended and no error
is recorded. -/
theorem citation_unknown_id_resolves_to_fallback (st : AppState) (now : Nat)
    (q answer : String) (rawCitations : List RawCitation) (cit : RawCitation)
    (habs : ∀ s ∈ st.sources, s.id ≠ cit.sourceId)
    (hne : st.sources ≠ []) :
    citTitle st.sources cit.sourceId = unknownSourceTitle
    ∧ resolveCitation st.sources cit =
        { sourceId := cit.sourceId, sourceTitle := unknownSourceTitle, quote := cit.quote }
    ∧ sendMessage st now q (.success answer rawCitations) =
        appendMessage
          (appendMessage { st with errorMsg := none }
            { id := "msg-" ++ toString now, role := .user, text := q, citations := none })
          { id := "msg-" ++ toString (now + 1), role := .model, text := answer
          , citations := some (rawCitations.map (resolveCitation st.sources)) } := by
  have hfind : st.sources.find? (fun s => s.id == cit.sourceId) = none := by
    rw [List.find?_eq_none]
    intro s hs
    simpa using habs s hs
  have h1 : citTitle st.sources cit.sourceId = unknownSourceTitle := by
    simp [citTitle, hfind]
  refine ⟨h1, by simp [resolveCitation, h1], ?_⟩
  simp only [sendMessage]
  simp [appendMessage_sources, List.length_eq_zero, hne]

/-- Witness for C9 at a one-source collection and a dangling citation. -/
theorem citation_unknown_id_resolves_to_fallback_witness :
    citTitle [srcA] "zz" = unknownSourceTitle :=
  (citation_unknown_id_resolves_to_fallback { initState with sources := [srcA] } 0 "q" "ans"
    [{ sourceId := "zz", quote := "qt" }] { sourceId := "zz", quote := "qt" }
    (by decide) (by decide)).1

/-! ### C3: initial-load failure handling -/

lemma stringIncludes_append_left {s sub : String} (t : String)
    (h : stringIncludes s sub = true) : stringIncludes (s ++ t) sub = true := by
  unfold stringIncludes at h ⊢
  rw [decide_eq_true_eq] at h ⊢
  rw [String.data_append]
  exact h.trans (List.prefix_append s.data t.data).isInfix

lemma apiErrMsg_includes_API (status : Nat) :
    stringIncludes (apiErrMsg status) "API" = true :=
  stringIncludes_append_left _ (by decide)

/-- C3 counterexample: the initial-load description recorded for a
generic remote failure (HTTP 500) is the rate-limit description — the
`err.message.includes("API")` test also matches the generic GitHub API
error message — so the generic remote cause is not distinguished from
the rate-limit cause; only transport failures get the generic message. -/
theorem initial_load_generic_cause_gets_rate_limit_description :
    (fetchInitialSources initState (.otherStatus 500)).errorMsg =
      (fetchInitialSources initState .forbidden).errorMsg
    ∧ (fetchInitialSources initState (.otherStatus 500)).errorMsg = some rateLimitDisplayMsg
    ∧ (fetchInitialSources initState .transportFailure).errorMsg = some genericDisplayMsg
    ∧ rateLimitDisplayMsg ≠ genericDisplayMsg := by
  decide

/-- C3 amended: on any failing initial load, published and draft are set
to the built-in defaults and the revision tag is left unset; the
recorded description distinguishes not-found, API (the rate-limit cause
and other GitHub API statuses share one description), and
network/transport causes, and those three descriptions are pairwise
distinct. -/
theorem initial_load_failure_defaults_and_categories (st : AppState) (o : RemoteOutcome)
    (e : JsError) (h0 : st.sourcesEtag = none)
    (h : getSources PUBLIC_GIST_ID none o = .error e) :
    ((fetchInitialSources st o).sources = DEFAULT_SOURCES
      ∧ (fetchInitialSources st o).draftSources = DEFAULT_SOURCES
      ∧ (fetchInitialSources st o).sourcesEtag = none
      ∧ (fetchInitialSources st o).errorMsg = some (classifyFetchError e))
    ∧ (o = .notFound → classifyFetchError e = notFoundDisplayMsg)
    ∧ ((o = .forbidden ∨ ∃ s, o = .otherStatus s) → classifyFetchError e = rateLimitDisplayMsg)
    ∧ (o = .transportFailure → classifyFetchError e = genericDisplayMsg)
    ∧ (notFoundDisplayMsg ≠ rateLimitDisplayMsg ∧ notFoundDisplayMsg ≠ genericDisplayMsg
        ∧ rateLimitDisplayMsg ≠ genericDisplayMsg) := by
  have hgv : (PUBLIC_GIST_ID == "") = false := by decide
  refine ⟨by simp [fetchInitialSources, h, h0], ?_, ?_, ?_, by decide, by decide, by decide⟩
  · rintro rfl
    simp only [getSources, hgv, Bool.false_eq_true, if_false, Except.error.injEq] at h
    subst h
    simp [classifyFetchError]
  · rintro (rfl | ⟨s, rfl⟩) <;>
      simp only [getSources, hgv, Bool.false_eq_true, if_false, Except.error.injEq] at h <;>
      subst h
    · simp [classifyFetchError, rateLimitMsg, rateLimitDisplayMsg]
      decide
    · simp [classifyFetchError, apiErrMsg_includes_API s]
  · rintro rfl
    simp only [getSources, hgv, Bool.false_eq_true, if_false, Except.error.injEq] at h
    subst h
    have : stringIncludes networkMsg "API" = false := by decide
    simp [classifyFetchError, this]

/-- Witness for C3 (amended) at the not-found outcome on a fresh state. -/
theorem initial_load_failure_defaults_and_categories_witness :
    (fetchInitialSources initState .notFound).sources = DEFAULT_SOURCES
    ∧ (fetchInitialSources initState .notFound).errorMsg = some notFoundDisplayMsg := by
  have := initial_load_failure_defaults_and_categories initState .notFound
    { isGistNotFound := true, message := notFoundMsg PUBLIC_GIST_ID } rfl rfl
  exact ⟨this.1.1, by rw [this.1.2.2.2, this.2.1 rfl]⟩

/-! ### C2: the background poll -/

/-- C2: a poll tick is skipped — no fetch issued, no state change — when
the session is dirty or no revision tag is held; a tick that runs while
clean (tag held and non-empty) and resolves with a 200 carrying a new
collection replaces published and the tag, additionally replaces draft
and toasts once for an admin, or clears the guest log and toasts once
for a guest — exactly one notification either way. -/
theorem poll_skip_and_clean_update :
    (∀ (st : AppState) (remote : RemoteOutcome),
        hasUnsavedChanges st.sources st.draftSources = true ∨ st.sourcesEtag = none →
        pollTick st remote = (st, false))
    ∧ ∀ (st : AppState) (remote : RemoteOutcome) (newSources : List Source)
        (newEtag : Option String) (e : String),
        hasUnsavedChanges st.sources st.draftSources = false →
        st.sourcesEtag = some e → e ≠ "" →
        getSources PUBLIC_GIST_ID st.sourcesEtag remote =
          .ok { status := 200, sources := some newSources, etag := newEtag } →
        pollTick st remote =
          ((if st.isAdmin then
              { st with
                  sources := newSources, draftSources := newSources
                  sourcesEtag := newEtag, toasts := st.toasts ++ [adminPollToast] }
            else
              { st with
                  sources := newSources, sourcesEtag := newEtag
                  guestMessages := [], toasts := st.toasts ++ [guestPollToast] }), true)
          ∧ (pollTick st remote).1.toasts.length = st.toasts.length + 1 := by
  constructor
  · intro st remote hskip
    unfold pollTick
    rcases hskip with hd | he
    · rw [hd]
      simp
    · rw [he]
      simp [etagFalsy]
  · intro st remote ns netag e hclean het hne hget
    have hfalsy : etagFalsy st.sourcesEtag = false := by
      rw [het]
      simpa [etagFalsy] using hne
    have hmain : pollTick st remote =
        ((if st.isAdmin then
            { st with
                sources := ns, draftSources := ns
                sourcesEtag := netag, toasts := st.toasts ++ [adminPollToast] }
          else
            { st with
                sources := ns, sourcesEtag := netag
                guestMessages := [], toasts := st.toasts ++ [guestPollToast] }), true) := by
      unfold pollTick
      rw [hclean, hfalsy, hget]
      simp
      split <;> rfl
    refine ⟨hmain, ?_⟩
    rw [hmain]
    cases st.isAdmin <;> simp

/-- A concrete dirty admin session holding a tag. -/
def dirtySt : AppState :=
  { initState with
      isAdmin := true, sources := [srcA]
      draftSources := [srcA, srcB], sourcesEtag := some "e1" }

/-- A concrete clean guest session holding a tag. -/
def cleanSt : AppState :=
  { initState with sources := [srcA], draftSources := [srcA], sourcesEtag := some "e1" }

/-- Witness for C2: a dirty session skips the tick; a clean guest
session receiving a new collection updates, clears its log and toasts
once. -/
theorem poll_skip_and_clean_update_witness :
    pollTick dirtySt .notModified = (dirtySt, false)
    ∧ pollTick cleanSt (.ok (some (.array [srcB])) (some "e2")) =
        ({ cleanSt with
             sources := [srcB], sourcesEtag := some "e2"
             guestMessages := [], toasts := [guestPollToast] }, true) := by
  constructor
  · exact poll_skip_and_clean_update.1 dirtySt .notModified (Or.inl (by decide))
  · have := poll_skip_and_clean_update.2 cleanSt (.ok (some (.array [srcB])) (some "e2"))
      [srcB] (some "e2") "e1" (by decide) rfl (by decide) rfl
    simpa [cleanSt, initState] using this.1

end Chatbot
